import Mathlib

/-!
Shallow embedding of `src/intercept/mdapi/intercept_mdapi.cpp` from the
OpenCL Intercept Layer: the MDAPI performance-counter subsystem of the
`CLIntercept` class.  Machine integers are modelled as `Nat`/`Int`; the
external collaborators (the MetricsDiscovery `MDHelper` backend, the
dispatch table, the logger) are modelled by explicit environment records
whose fields hold the results of the external calls.
-/

namespace MDAPI

/-- OpenCL constant `CL_SUCCESS` (0). -/
def CL_SUCCESS : Int := 0

/-- OpenCL constant `CL_QUEUE_OUT_OF_ORDER_EXEC_MODE_ENABLE` ((1 << 0)). -/
def CL_QUEUE_OUT_OF_ORDER_EXEC_MODE_ENABLE : Nat := 1

/-- OpenCL constant `CL_QUEUE_PROFILING_ENABLE` ((1 << 1)). -/
def CL_QUEUE_PROFILING_ENABLE : Nat := 2

/-- OpenCL constant `CL_QUEUE_PROPERTIES` (0x1093). -/
def CL_QUEUE_PROPERTIES : Nat := 0x1093

/-- OpenCL constant `CL_QUEUE_PRIORITY_KHR` (0x1096). -/
def CL_QUEUE_PRIORITY_KHR : Nat := 0x1096

/-- OpenCL constant `CL_QUEUE_THROTTLE_KHR` (0x1097). -/
def CL_QUEUE_THROTTLE_KHR : Nat := 0x1097

/-- The inner `switch( properties[ i + 1 ] )` of `convertPropertiesToOCL1_2`
(intercept_mdapi.cpp lines 45-55): the queue-properties values accepted are
`0`, `CL_QUEUE_PROFILING_ENABLE`, `CL_QUEUE_OUT_OF_ORDER_EXEC_MODE_ENABLE`
and their bitwise OR. -/
def supportedQueuePropsValue (v : Nat) : Bool :=
  v == 0 ||
  v == CL_QUEUE_PROFILING_ENABLE ||
  v == CL_QUEUE_OUT_OF_ORDER_EXEC_MODE_ENABLE ||
  v == (CL_QUEUE_PROFILING_ENABLE ||| CL_QUEUE_OUT_OF_ORDER_EXEC_MODE_ENABLE)

/-- The `for( int i = 0; properties[ i ] != 0; i += 2 )` loop of
`convertPropertiesToOCL1_2` (intercept_mdapi.cpp lines 40-64), reading the
property array two entries at a time: a zero key terminates with success; a
`CL_QUEUE_PROPERTIES` key ORs a supported value into the accumulated bitfield
and rejects any other value; `CL_QUEUE_PRIORITY_KHR` / `CL_QUEUE_THROTTLE_KHR`
keys are skipped; any other key is rejected.  The two catch-all cases for a
truncated array (no zero terminator) are unreachable for well-formed input,
whose contract requires zero-key termination (the C++ would read out of
bounds there). -/
def convertLoop : List Nat → Nat → Bool × Nat
  | [], acc => (false, acc)
  | [k], acc => if k == 0 then (true, acc) else (false, acc)
  | k :: v :: rest, acc =>
    if k == 0 then (true, acc)
    else if k == CL_QUEUE_PROPERTIES then
      if supportedQueuePropsValue v then convertLoop rest (acc ||| v)
      else (false, acc)
    else if k == CL_QUEUE_PRIORITY_KHR || k == CL_QUEUE_THROTTLE_KHR then
      convertLoop rest acc
    else (false, acc)

/-- `convertPropertiesToOCL1_2` (intercept_mdapi.cpp lines 33-68): converts an
OpenCL 2.0 zero-terminated key/value property array into an OpenCL 1.2
bitfield.  The reference parameter `ocl1_2_properties` is modelled by passing
its incoming value and returning its final value alongside the success flag;
a null `properties` pointer is `none` and leaves the bitfield untouched. -/
def convertPropertiesToOCL1_2 : Option (List Nat) → Nat → Bool × Nat
  | none, ocl => (true, ocl)
  | some l, ocl => convertLoop l ocl

/-- Flattens a list of key/value pairs into the zero-terminated array layout
that `convertPropertiesToOCL1_2` consumes: a well-formed property list. -/
def pairsToList : List (Nat × Nat) → List Nat
  | [] => [0]
  | (k, v) :: rest => k :: v :: pairsToList rest

/-- A key/value pair the translator supports: a queue-properties key with one
of the four accepted values, or one of the two skipped hint keys. -/
def supportedPair (p : Nat × Nat) : Bool :=
  (p.1 == CL_QUEUE_PROPERTIES && supportedQueuePropsValue p.2) ||
  p.1 == CL_QUEUE_PRIORITY_KHR || p.1 == CL_QUEUE_THROTTLE_KHR

/-- The bitwise OR of all queue-properties values present in a property list
(values under hint keys do not contribute). -/
def queuePropsOr : List (Nat × Nat) → Nat
  | [] => 0
  | (k, v) :: rest =>
    if k == CL_QUEUE_PROPERTIES then v ||| queuePropsOr rest else queuePropsOr rest

theorem convertLoop_supported (ps : List (Nat × Nat)) (acc : Nat)
    (h : ∀ p ∈ ps, supportedPair p = true) :
    convertLoop (pairsToList ps) acc = (true, acc ||| queuePropsOr ps) := by
  induction ps generalizing acc with
  | nil => simp [pairsToList, convertLoop, queuePropsOr, Nat.or_zero]
  | cons p rest ih =>
    obtain ⟨k, v⟩ := p
    have hp := h (k, v) (List.mem_cons_self _ _)
    have hrest : ∀ q ∈ rest, supportedPair q = true := fun q hq => h q (List.mem_cons_of_mem _ hq)
    simp only [supportedPair, Bool.or_eq_true, Bool.and_eq_true, beq_iff_eq] at hp
    rcases hp with (⟨hk, hv⟩ | hk) | hk
    · subst hk
      have hk0 : (CL_QUEUE_PROPERTIES == 0) = false := by decide
      simp only [pairsToList, convertLoop, hk0, beq_self_eq_true, if_true, if_false,
        Bool.false_eq_true, hv, ih _ hrest, queuePropsOr]
      rw [Nat.lor_assoc]
    · subst hk
      simp [pairsToList, convertLoop, CL_QUEUE_PRIORITY_KHR, CL_QUEUE_PROPERTIES,
        queuePropsOr, ih _ hrest]
    · subst hk
      simp [pairsToList, convertLoop, CL_QUEUE_THROTTLE_KHR, CL_QUEUE_PROPERTIES,
        queuePropsOr, ih _ hrest]

theorem convertLoop_unsupported (ps : List (Nat × Nat)) (acc : Nat)
    (hnz : ∀ p ∈ ps, p.1 ≠ 0) (hbad : ∃ p ∈ ps, supportedPair p = false) :
    (convertLoop (pairsToList ps) acc).1 = false := by
  induction ps generalizing acc with
  | nil => simp at hbad
  | cons p rest ih =>
    obtain ⟨k, v⟩ := p
    have hk0 : (k == 0) = false := by
      have := hnz (k, v) (List.mem_cons_self _ _)
      simpa using this
    rcases hbad with ⟨q, hq, hqbad⟩
    rcases List.mem_cons.mp hq with hq1 | hq2
    · subst hq1
      by_cases hkp : (k == CL_QUEUE_PROPERTIES) = true
      · have hv : supportedQueuePropsValue v = false := by
          rcases hb : supportedQueuePropsValue v with _ | _
          · rfl
          · rw [supportedPair] at hqbad
            simp [hkp, hb] at hqbad
        simp [pairsToList, convertLoop, hk0, hkp, hv]
      · have hhint : (k == CL_QUEUE_PRIORITY_KHR || k == CL_QUEUE_THROTTLE_KHR) = false := by
          rcases hb : (k == CL_QUEUE_PRIORITY_KHR || k == CL_QUEUE_THROTTLE_KHR) with _ | _
          · rfl
          · rw [supportedPair] at hqbad
            simp only [Bool.or_eq_true, beq_iff_eq] at hb
            rcases hb with hb | hb <;> simp [hb] at hqbad
        simp only [Bool.not_eq_true] at hkp
        simp [pairsToList, convertLoop, hk0, hkp, hhint]
    · have hrestnz : ∀ r ∈ rest, r.1 ≠ 0 := fun r hr => hnz r (List.mem_cons_of_mem _ hr)
      have hrestbad : ∃ r ∈ rest, supportedPair r = false := ⟨q, hq2, hqbad⟩
      simp only [pairsToList, convertLoop, hk0, Bool.false_eq_true, if_false]
      by_cases hkp : (k == CL_QUEUE_PROPERTIES) = true
      · by_cases hv : supportedQueuePropsValue v = true
        · simp [hkp, hv, ih _ hrestnz hrestbad]
        · simp only [Bool.not_eq_true] at hv
          simp [hkp, hv]
      · simp only [Bool.not_eq_true] at hkp
        by_cases hhint : (k == CL_QUEUE_PRIORITY_KHR || k == CL_QUEUE_THROTTLE_KHR) = true
        · simp [hkp, hhint, ih _ hrestnz hrestbad]
        · simp only [Bool.not_eq_true] at hhint
          simp [hkp, hhint]

/-- A line emitted through the `log`/`logf` sink.  The messages carry the data
the C++ format strings interpolate; `eventQueryFailed` records the result code
that is logged in both its symbolic (via the external enum-name translator)
and numeric form. -/
inductive LogMsg where
  | metricDiscoveryInitialized
  | metricDiscoveryFailed
  | noEntryPointFound
  | metricsNotInitialized
  | callingCreate (configuration : Nat)
  | createFailed (errorCode : Int)
  | createSucceeded
  | activateFailed
  | eventQueryFailed (errorCode : Int)
  deriving DecidableEq

/-- A row of the metric dump file `m_MetricDump`: the metric-names header row
(`PrintMetricNames`), the metric-units header row (`PrintMetricUnits`), or one
row of metric values (`PrintMetricValues`) tagged with its source label
("TBS" for the stream path, the call-site name for the event path). -/
inductive DumpRow where
  | metricNames
  | metricUnits
  | values (label : String)
  deriving DecidableEq

/-- `MetricsDiscovery::SMetricAggregationData`: the running {count, sum} pair
kept per (call-site name, metric name). -/
structure SMetricAggregationData where
  Count : Nat
  Sum : Nat
  deriving DecidableEq

/-- Modelled from the spec: the `MetricsDiscovery::MDHelper` backend object is
repository code that is not under `src/` (the spec treats it as an opaque
external service, §6).  Only the observables the shown core consumes are
modelled: the number of hardware reports pending in the continuous sample
stream (`SaveReportsFromStream` answers true exactly while some report is
pending and harvests one batch per call) and the fixed per-event query report
size (`GetQueryReportSize`). -/
structure MDHelper where
  pendingStreamReports : Nat
  queryReportSize : Nat
  deriving DecidableEq

/-- The configuration options the subsystem reads (`config()`), per the
Configuration collaborator contract. -/
structure Config where
  DevicePerfCounterCustom : String
  DevicePerfCounterFile : String
  DevicePerfCounterLibName : String
  DevicePerfCounterReportMax : Bool
  DevicePerfCounterEventBasedSampling : Bool
  DevicePerfCounterTimeBasedSampling : Bool
  DevicePerfCounterTiming : Bool
  deriving DecidableEq

/-- The Aggregation Table `m_MetricAggregations`
(`MetricsDiscovery::CMetricAggregations`): call-site name, in insertion
order, to the per-metric running statistics, in insertion order. -/
abbrev CMetricAggregations := List (String × List (String × SMetricAggregationData))

/-- The mutable state of `CLIntercept` touched by this subsystem.  The
`std::ofstream m_MetricDump` is modelled by its open flag, the rows written
to it, and a count of how many times it was opened; `streamOpenCalls` counts
the `MDHelper::OpenStream` invocations; `entryResolved` models whether the
per-platform dispatch slot `clCreatePerfCountersCommandQueueINTEL` is
resolved (non-null). -/
structure CLIntercept where
  m_pMDHelper : Option MDHelper
  m_MetricDump_isOpen : Bool
  m_MetricDump_openCount : Nat
  m_MetricDump_content : List DumpRow
  streamOpenCalls : Nat
  m_MetricAggregations : CMetricAggregations
  entryResolved : Bool
  log : List LogMsg
  deriving DecidableEq

/-- The `CLIntercept` state at process start: no helper, dump file closed and
never opened, no stream opened, empty aggregations, dispatch slot
unresolved, empty log. -/
def initialCLIntercept : CLIntercept :=
  { m_pMDHelper := none
    m_MetricDump_isOpen := false
    m_MetricDump_openCount := 0
    m_MetricDump_content := []
    streamOpenCalls := 0
    m_MetricAggregations := []
    entryResolved := false
    log := [] }

/-- Modelled from the spec: `CLI_ASSERT` comes from `common.h`, which is not
under `src/`.  Per the spec the sampling-mode preconditions are a documented
caller contract, and the assertion is a development-build diagnostic, not an
enforcement branch: it does not alter the subsystem state. -/
def CLI_ASSERT (_cond : Bool) (s : CLIntercept) : CLIntercept := s

/-- The external outcomes one call to `initCustomPerfCounters` can observe:
whether `MDHelper::CreateEBS`/`CreateTBS` returns a helper, and which helper
it returns. -/
structure InitEnv where
  createSucceeds : Bool
  newHelper : MDHelper
  deriving DecidableEq

/-- `CLIntercept::initCustomPerfCounters` (intercept_mdapi.cpp lines 72-142).
If `m_pMDHelper` is null, construct it with `CreateEBS` or `CreateTBS` per
the sampling-mode configuration (neither configured hits `CLI_ASSERT(0)` and
leaves the helper null), logging success or failure.  Then, if a helper
exists: when time-based sampling is configured call `OpenStream` (10 ms
timer, device-default buffer, all processes); and if the dump file is not yet
open, derive its name, create the dump directories, open it, and print the
metric-names and metric-units header rows. -/
def initCustomPerfCounters (cfg : Config) (env : InitEnv) (s : CLIntercept) : CLIntercept :=
  let s1 :=
    match s.m_pMDHelper with
    | some _ => s
    | none =>
      let s0 :=
        if cfg.DevicePerfCounterEventBasedSampling then
          if env.createSucceeds then { s with m_pMDHelper := some env.newHelper } else s
        else if cfg.DevicePerfCounterTimeBasedSampling then
          if env.createSucceeds then { s with m_pMDHelper := some env.newHelper } else s
        else
          CLI_ASSERT false s
      match s0.m_pMDHelper with
      | some _ => { s0 with log := s0.log ++ [LogMsg.metricDiscoveryInitialized] }
      | none => { s0 with log := s0.log ++ [LogMsg.metricDiscoveryFailed] }
  match s1.m_pMDHelper with
  | none => s1
  | some _ =>
    let s2 :=
      if cfg.DevicePerfCounterTimeBasedSampling then
        { s1 with streamOpenCalls := s1.streamOpenCalls + 1 }
      else s1
    if s2.m_MetricDump_isOpen then s2
    else
      { s2 with
          m_MetricDump_isOpen := true
          m_MetricDump_openCount := s2.m_MetricDump_openCount + 1
          m_MetricDump_content := [DumpRow.metricNames, DumpRow.metricUnits] }

/-- A sequence of `initCustomPerfCounters` calls under one configuration,
each call with its own external outcome. -/
def runInits (cfg : Config) (envs : List InitEnv) (s : CLIntercept) : CLIntercept :=
  envs.foldl (fun st e => initCustomPerfCounters cfg e st) s

/-- The `while( true )` loop of `getMDAPICountersFromStream`
(intercept_mdapi.cpp lines 257-282), on the observables it touches: the
number of reports still pending in the stream and the dump-file content.
Each iteration asks `SaveReportsFromStream`; while a report was saved it
converts the saved reports (`GetMetricsFromSavedReports`,
`GetIOMeasurementInformation`), prints one "TBS"-tagged row of values to the
dump file, and resets the saved reports; when nothing is pending it breaks. -/
def streamDrainLoop : Nat → List DumpRow → Nat × List DumpRow
  | 0, content => (0, content)
  | pending + 1, content => streamDrainLoop pending (content ++ [DumpRow.values "TBS"])

/-- `CLIntercept::getMDAPICountersFromStream` (intercept_mdapi.cpp lines
246-284): assert the time-based-sampling precondition, then, if the helper
exists, drain the stream to empty with the loop above. -/
def getMDAPICountersFromStream (cfg : Config) (s : CLIntercept) : CLIntercept :=
  let s := CLI_ASSERT cfg.DevicePerfCounterTimeBasedSampling s
  match s.m_pMDHelper with
  | none => s
  | some h =>
    let r := streamDrainLoop h.pendingStreamReports s.m_MetricDump_content
    { s with
        m_pMDHelper := some { h with pendingStreamReports := r.1 }
        m_MetricDump_content := r.2 }

/-- Modelled from the spec: one accumulation step of
`MDHelper::AggregateMetrics` (repository code not under `src/`; spec §4.6):
locate or create the metric's {sum, count} entry in a call-site's sub-map
(first-seen order fixed on first insertion), add the value to the sum and
increment the count. -/
def aggregateValue (metrics : List (String × SMetricAggregationData)) (mname : String)
    (v : Nat) : List (String × SMetricAggregationData) :=
  match metrics with
  | [] => [(mname, { Count := 1, Sum := v })]
  | (n, d) :: rest =>
    if n = mname then (n, { Count := d.Count + 1, Sum := d.Sum + v }) :: rest
    else (n, d) :: aggregateValue rest mname v

/-- Modelled from the spec: `MDHelper::AggregateMetrics` (repository code not
under `src/`; spec §4.6): locate or create the call-site's metric sub-map and
fold every (metric name, value) pair of the report into it. -/
def aggregateMetrics (table : CMetricAggregations) (name : String)
    (results : List (String × Nat)) : CMetricAggregations :=
  match table with
  | [] => [(name, results.foldl (fun m r => aggregateValue m r.1 r.2) [])]
  | (k, metrics) :: rest =>
    if k = name then
      (k, results.foldl (fun m r => aggregateValue m r.1 r.2) metrics) :: rest
    else (k, metrics) :: aggregateMetrics rest name results

/-- The external outcomes one call to `getMDAPICountersFromEvent` can
observe: the result code and output size of the driver's
`clGetEventProfilingInfo` query, and the named metric values that
`GetMetricsFromReports` extracts from the fetched report (`numResults` is
their number). -/
structure EventEnv where
  errorCode : Int
  outputSize : Nat
  results : List (String × Nat)
  deriving DecidableEq

/-- `CLIntercept::getMDAPICountersFromEvent` (intercept_mdapi.cpp lines
288-351): assert the event-based-sampling precondition; if the helper
exists, allocate a scratch report buffer of `GetQueryReportSize` bytes
(released unconditionally before return) and query the driver for the
event's performance-counter profiling record.  On success, assert the
defensive size check, convert the buffer, and if at least one metric value
resulted, print a row tagged with the call-site name to the dump file and
feed the values into the Aggregation Table under that name.  On a
non-success result code, only log the failure with the code in symbolic and
numeric form. -/
def getMDAPICountersFromEvent (cfg : Config) (env : EventEnv) (name : String)
    (s : CLIntercept) : CLIntercept :=
  let s := CLI_ASSERT cfg.DevicePerfCounterEventBasedSampling s
  match s.m_pMDHelper with
  | none => s
  | some h =>
    if env.errorCode = CL_SUCCESS then
      let s := CLI_ASSERT (env.outputSize == h.queryReportSize) s
      if env.results.length ≠ 0 then
        { s with
            m_MetricDump_content := s.m_MetricDump_content ++ [DumpRow.values name]
            m_MetricAggregations := aggregateMetrics s.m_MetricAggregations name env.results }
      else s
    else
      { s with log := s.log ++ [LogMsg.eventQueryFailed env.errorCode] }

/-- The external outcomes one `createMDAPICommandQueue` call can observe:
whether `getExtensionFunctionAddress` resolves the
`clCreatePerfCountersCommandQueueINTEL` dispatch slot, whether
`ActivateMetricSet` succeeds, the `GetMetricsConfiguration` id, and the
queue handle (null = `none`) and error code produced by the backend's
queue-creation entry point. -/
structure QueueEnv where
  resolveSucceeds : Bool
  activateOk : Bool
  configuration : Nat
  backendQueue : Option Nat
  backendErr : Int
  deriving DecidableEq

/-- The outcome of one `createMDAPICommandQueue` call: the state after the
call, the returned queue handle (null = `none`), whether
`ActivateMetricSet` was invoked, whether the backend's
`clCreatePerfCountersCommandQueueINTEL` entry point was invoked, and the
value stored through `errcode_ret` (`none` when nothing was stored). -/
structure QueueCallResult where
  state : CLIntercept
  retVal : Option Nat
  activateCalled : Bool
  backendCreateCalled : Bool
  errcodeOut : Option Int
  deriving DecidableEq

/-- `CLIntercept::createMDAPICommandQueue`, bitfield overload
(intercept_mdapi.cpp lines 146-211).  Resolve the dispatch slot by name if
still null; under the lock, fail with a null queue if the slot is still
null or the helper is uninitialized; otherwise activate the metric set
(failing with a null queue on activation failure), then call the backend
entry point with the current configuration id, log the outcome, and store
the backend's error code through `errcode_ret` when the caller supplied
one.  `errcodeSupplied` models whether `errcode_ret` is non-null; the
`properties` bitfield is forwarded to the backend call unmodified. -/
def createMDAPICommandQueue (env : QueueEnv) (_properties : Nat)
    (errcodeSupplied : Bool) (s : CLIntercept) : QueueCallResult :=
  let entry := s.entryResolved || env.resolveSucceeds
  let s := { s with entryResolved := entry }
  if !entry then
    { state := { s with log := s.log ++ [LogMsg.noEntryPointFound] }
      retVal := none, activateCalled := false, backendCreateCalled := false
      errcodeOut := none }
  else
    match s.m_pMDHelper with
    | none =>
      { state := { s with log := s.log ++ [LogMsg.metricsNotInitialized] }
        retVal := none, activateCalled := false, backendCreateCalled := false
        errcodeOut := none }
    | some _ =>
      if env.activateOk then
        let outcome :=
          match env.backendQueue with
          | none => LogMsg.createFailed env.backendErr
          | some _ => LogMsg.createSucceeded
        { state := { s with
            log := s.log ++ [LogMsg.callingCreate env.configuration, outcome] }
          retVal := env.backendQueue
          activateCalled := true
          backendCreateCalled := true
          errcodeOut := if errcodeSupplied then some env.backendErr else none }
      else
        { state := { s with log := s.log ++ [LogMsg.activateFailed] }
          retVal := none, activateCalled := true, backendCreateCalled := false
          errcodeOut := none }

/-- `CLIntercept::createMDAPICommandQueue`, property-list overload
(intercept_mdapi.cpp lines 215-242): run the Property Translator on the
OpenCL 2.0 property list (starting from a zero bitfield) and, only if it
succeeds, delegate to the bitfield overload with the converted properties;
on translation failure return a null queue without doing anything else. -/
def createMDAPICommandQueueWithProperties (env : QueueEnv)
    (properties : Option (List Nat)) (errcodeSupplied : Bool)
    (s : CLIntercept) : QueueCallResult :=
  let conv := convertPropertiesToOCL1_2 properties 0
  if conv.1 then
    createMDAPICommandQueue env conv.2 errcodeSupplied s
  else
    { state := s, retVal := none, activateCalled := false
      backendCreateCalled := false, errcodeOut := none }

/-- `std::setw(w)` followed by `std::right`: left-pad a rendered value with
spaces to width `w` (no padding when it is already at least that wide). -/
def setwPad (w : Nat) (str : String) : String :=
  String.mk (List.replicate (w - str.length) ' ') ++ str

/-- The `headerWidths` vector of `reportMDAPICounters` (intercept_mdapi.cpp
lines 362-369): the lengths of the metric names of the *first* call-site's
metric sub-map, in order (empty when the table is empty). -/
def headerWidths (aggr : CMetricAggregations) : List Nat :=
  match aggr with
  | [] => []
  | (_, metrics) :: _ => metrics.map (fun m => m.1.length)

/-- The `header` string of `reportMDAPICounters`: the first call-site's
metric names, each followed by ", ". -/
def reportHeader (aggr : CMetricAggregations) : String :=
  match aggr with
  | [] => ""
  | (_, metrics) :: _ => String.join (metrics.map (fun m => m.1 ++ ", "))

/-- The inner per-metric loop of `reportMDAPICounters` (intercept_mdapi.cpp
lines 383-389): for the `numMetric`-th metric of a call-site (counting from
0 and resetting per call-site), print its mean `Sum / Count` right-justified
to `headerWidths[ numMetric ]` followed by ", ".  The C++ indexes the width
vector unchecked; the model reads `widths.getD i 0`, and
`reportWidthIndices` below records exactly which indices are read. -/
def reportCells (widths : List Nat) (metrics : List (String × SMetricAggregationData)) :
    String :=
  String.join (metrics.enum.map (fun p =>
    setwPad (widths.getD p.1 0) (toString (p.2.2.Sum / p.2.2.Count)) ++ ", "))

/-- One call-site row of `reportMDAPICounters` (intercept_mdapi.cpp lines
374-390): newline, the call-site name right-justified to width 44, ", ", the
call count taken from the first metric's `Count` right-justified to width 6,
", ", then the per-metric cells. -/
def reportRow (widths : List Nat) (entry : String × List (String × SMetricAggregationData)) :
    String :=
  "\n" ++ setwPad 44 entry.1 ++ ", " ++
    setwPad 6 (toString ((entry.2.head?.map (fun m => m.2.Count)).getD 0)) ++ ", " ++
    reportCells widths entry.2

/-- `CLIntercept::reportMDAPICounters` (intercept_mdapi.cpp lines 355-393),
as the text written to the output stream `os`: nothing at all unless
per-event timing and event-based sampling are both configured and the
Aggregation Table is non-empty; otherwise the title line, the column-header
line, one row per call-site in table order, and a final newline. -/
def reportMDAPICounters (cfg : Config) (aggr : CMetricAggregations) : String :=
  if cfg.DevicePerfCounterTiming && cfg.DevicePerfCounterEventBasedSampling &&
      !aggr.isEmpty then
    "\n" ++ "Device Performance Counter Timing: (Average metric per enqueue)" ++ "\n" ++
      "                                FunctionName,  Calls, " ++ reportHeader aggr ++
      String.join (aggr.map (reportRow (headerWidths aggr))) ++ "\n"
  else ""

/-- The sequence of indices with which `reportMDAPICounters` subscripts
`headerWidths`: for each call-site of the table, in order, the counter
`numMetric` runs from 0 up to the size of that call-site's metric sub-map. -/
def reportWidthIndices (aggr : CMetricAggregations) : List Nat :=
  aggr.flatMap (fun entry => List.range entry.2.length)

/-! Shared concrete sample values, used to instantiate the theorems below. -/

/-- A concrete helper handle. -/
def sampleHelper : MDHelper := { pendingStreamReports := 3, queryReportSize := 64 }

/-- A concrete time-based-sampling configuration. -/
def tbsConfig : Config :=
  { DevicePerfCounterCustom := "ComputeBasic"
    DevicePerfCounterFile := ""
    DevicePerfCounterLibName := ""
    DevicePerfCounterReportMax := false
    DevicePerfCounterEventBasedSampling := false
    DevicePerfCounterTimeBasedSampling := true
    DevicePerfCounterTiming := false }

/-- A concrete event-based-sampling configuration. -/
def ebsConfig : Config :=
  { DevicePerfCounterCustom := "ComputeBasic"
    DevicePerfCounterFile := ""
    DevicePerfCounterLibName := ""
    DevicePerfCounterReportMax := false
    DevicePerfCounterEventBasedSampling := true
    DevicePerfCounterTimeBasedSampling := false
    DevicePerfCounterTiming := true }

/-- A concrete state whose session handle exists and whose dump sink is
open with the two header rows written. -/
def readyState : CLIntercept :=
  { initialCLIntercept with
      m_pMDHelper := some sampleHelper
      m_MetricDump_isOpen := true
      m_MetricDump_openCount := 1
      m_MetricDump_content := [DumpRow.metricNames, DumpRow.metricUnits] }

/-- A concrete external outcome for an initialization call. -/
def sampleInitEnv : InitEnv :=
  { createSucceeds := true, newHelper := sampleHelper }

/-- An aggregation table in which no call-site has more metrics than the
first one. -/
def aggrInBounds : CMetricAggregations :=
  [("kernelA", [("MetricX", { Count := 2, Sum := 10 }), ("MetricY", { Count := 2, Sum := 6 })]),
   ("kernelB", [("MetricX", { Count := 1, Sum := 4 })])]

/-- An aggregation table whose second call-site has more metrics than the
first one. -/
def aggrOverflow : CMetricAggregations :=
  [("kernelA", [("MetricX", { Count := 1, Sum := 1 })]),
   ("kernelB", [("MetricX", { Count := 1, Sum := 1 }), ("MetricY", { Count := 1, Sum := 2 })])]

/-- C2: for every well-formed zero-key-terminated property list containing
only supported keys and values, the Property Translator succeeds and the
resulting bitfield equals the bitwise OR of all queue-properties values
present in the list; for every list containing an unsupported key or an
unsupported queue-properties value (keys are nonzero before the
terminator), it returns false; for no list at all (null pointer), it
succeeds and leaves the output bitfield unchanged. -/
theorem convertPropertiesToOCL1_2_spec :
    (∀ ps : List (Nat × Nat), (∀ p ∈ ps, supportedPair p = true) →
      convertPropertiesToOCL1_2 (some (pairsToList ps)) 0 = (true, queuePropsOr ps)) ∧
    (∀ ps : List (Nat × Nat), (∀ p ∈ ps, p.1 ≠ 0) →
      (∃ p ∈ ps, supportedPair p = false) →
      (convertPropertiesToOCL1_2 (some (pairsToList ps)) 0).1 = false) ∧
    (∀ ocl : Nat, convertPropertiesToOCL1_2 none ocl = (true, ocl)) := by
  refine ⟨fun ps h => ?_, fun ps hnz hbad => ?_, fun ocl => rfl⟩
  · have hs := convertLoop_supported ps 0 h
    simpa [convertPropertiesToOCL1_2, Nat.zero_or] using hs
  · simpa [convertPropertiesToOCL1_2] using convertLoop_unsupported ps 0 hnz hbad

/-- Witness for C2: a supported singleton list yields exactly the profiling
bit, a list with an unsupported queue-properties value fails, and a null
list leaves the bitfield unchanged. -/
theorem convertPropertiesToOCL1_2_spec_witness :
    convertPropertiesToOCL1_2
        (some (pairsToList [(CL_QUEUE_PROPERTIES, CL_QUEUE_PROFILING_ENABLE)])) 0 =
      (true, queuePropsOr [(CL_QUEUE_PROPERTIES, CL_QUEUE_PROFILING_ENABLE)]) ∧
    (convertPropertiesToOCL1_2 (some (pairsToList [(CL_QUEUE_PROPERTIES, 0xBAD)])) 0).1 =
      false ∧
    convertPropertiesToOCL1_2 none 7 = (true, 7) :=
  ⟨convertPropertiesToOCL1_2_spec.1 _ (by decide),
   convertPropertiesToOCL1_2_spec.2.1 _ (by decide) (by decide),
   convertPropertiesToOCL1_2_spec.2.2 7⟩

theorem streamDrainLoop_drains (n : Nat) (c : List DumpRow) :
    streamDrainLoop n c = (0, c ++ List.replicate n (DumpRow.values "TBS")) := by
  induction n generalizing c with
  | zero => simp [streamDrainLoop]
  | succ m ih => simp [streamDrainLoop, ih, List.replicate_succ]

/-- C3: a single invocation of the Stream Drain Loop consumes every pending
hardware report before returning: with the session handle present and N
reports pending at entry, `getMDAPICountersFromStream` leaves zero reports
pending and appends exactly N value rows (tagged "TBS") to the dump sink. -/
theorem getMDAPICountersFromStream_drainsAll (cfg : Config) (s : CLIntercept)
    (h : MDHelper) (hh : s.m_pMDHelper = some h) :
    (getMDAPICountersFromStream cfg s).m_pMDHelper =
      some { h with pendingStreamReports := 0 } ∧
    (getMDAPICountersFromStream cfg s).m_MetricDump_content =
      s.m_MetricDump_content ++
        List.replicate h.pendingStreamReports (DumpRow.values "TBS") := by
  simp [getMDAPICountersFromStream, CLI_ASSERT, hh, streamDrainLoop_drains]

/-- Witness for C3: draining a state with three pending reports leaves none
pending and appends three "TBS" rows. -/
theorem getMDAPICountersFromStream_drainsAll_witness :
    readyState.m_pMDHelper = some sampleHelper ∧
    (getMDAPICountersFromStream tbsConfig readyState).m_pMDHelper =
      some { sampleHelper with pendingStreamReports := 0 } ∧
    (getMDAPICountersFromStream tbsConfig readyState).m_MetricDump_content =
      readyState.m_MetricDump_content ++
        List.replicate sampleHelper.pendingStreamReports (DumpRow.values "TBS") :=
  ⟨rfl,
   (getMDAPICountersFromStream_drainsAll tbsConfig readyState sampleHelper rfl).1,
   (getMDAPICountersFromStream_drainsAll tbsConfig readyState sampleHelper rfl).2⟩

/-- C1 counterexample: in a state whose session handle already exists (with
time-based sampling configured and the dump sink already open), a further
call to `initCustomPerfCounters` is not a no-op: it invokes the backend's
stream-open operation again, incrementing the count of `OpenStream` calls
from 0 to 1. -/
theorem initCustomPerfCounters_reopensStream :
    readyState.m_pMDHelper = some sampleHelper ∧
    initCustomPerfCounters tbsConfig sampleInitEnv readyState ≠ readyState ∧
    (initCustomPerfCounters tbsConfig sampleInitEnv readyState).streamOpenCalls =
      readyState.streamOpenCalls + 1 := by
  refine ⟨rfl, ?_, by decide⟩
  decide

/-- C1 (amended): for every state in which the session handle already
exists, a further call to `initCustomPerfCounters` does not reconstruct the
handle and, when the Dump Sink is already open, does not reopen it or touch
its contents; however, when time-based sampling is configured the call
opens the continuous sample stream again on every invocation; only when
time-based sampling is not configured and the sink is already open is the
call a complete no-op. -/
theorem initCustomPerfCounters_idempotent_amended (cfg : Config) (env : InitEnv)
    (s : CLIntercept) (h : MDHelper) (hh : s.m_pMDHelper = some h) :
    (initCustomPerfCounters cfg env s).m_pMDHelper = some h ∧
    (initCustomPerfCounters cfg env s).streamOpenCalls =
      s.streamOpenCalls +
        (if cfg.DevicePerfCounterTimeBasedSampling then 1 else 0) ∧
    (s.m_MetricDump_isOpen = true →
      (initCustomPerfCounters cfg env s).m_MetricDump_openCount =
          s.m_MetricDump_openCount ∧
      (initCustomPerfCounters cfg env s).m_MetricDump_content =
          s.m_MetricDump_content) ∧
    (cfg.DevicePerfCounterTimeBasedSampling = false →
      s.m_MetricDump_isOpen = true →
      initCustomPerfCounters cfg env s = s) := by
  by_cases htbs : cfg.DevicePerfCounterTimeBasedSampling
  · by_cases hop : s.m_MetricDump_isOpen
    · simp [initCustomPerfCounters, hh, htbs, hop]
    · simp [initCustomPerfCounters, hh, htbs, hop]
  · by_cases hop : s.m_MetricDump_isOpen
    · simp [initCustomPerfCounters, hh, htbs, hop]
    · simp [initCustomPerfCounters, hh, htbs, hop]

/-- Witness for C1's amended theorem: with event-based sampling configured
and the sink open, a repeated initialization call is a complete no-op. -/
theorem initCustomPerfCounters_idempotent_amended_witness :
    readyState.m_pMDHelper = some sampleHelper ∧
    ((initCustomPerfCounters ebsConfig sampleInitEnv readyState).m_pMDHelper =
        some sampleHelper ∧
      (initCustomPerfCounters ebsConfig sampleInitEnv readyState).streamOpenCalls =
        readyState.streamOpenCalls +
          (if ebsConfig.DevicePerfCounterTimeBasedSampling then 1 else 0) ∧
      (readyState.m_MetricDump_isOpen = true →
        (initCustomPerfCounters ebsConfig sampleInitEnv readyState).m_MetricDump_openCount =
            readyState.m_MetricDump_openCount ∧
        (initCustomPerfCounters ebsConfig sampleInitEnv readyState).m_MetricDump_content =
            readyState.m_MetricDump_content) ∧
      (ebsConfig.DevicePerfCounterTimeBasedSampling = false →
        readyState.m_MetricDump_isOpen = true →
        initCustomPerfCounters ebsConfig sampleInitEnv readyState = readyState)) :=
  ⟨rfl, initCustomPerfCounters_idempotent_amended ebsConfig sampleInitEnv readyState
    sampleHelper rfl⟩

/-- C4: whenever the driver's event-info query returns a non-success result
code (with the session handle present), the Event Report Extractor leaves
the Aggregation Table exactly unchanged, writes no dump row, and changes
nothing but the log, to which it appends the failure message carrying the
result code (logged in symbolic and numeric form); being a total function
of the embedding, it returns normally rather than propagating any
exception. -/
theorem getMDAPICountersFromEvent_failureIsolation (cfg : Config) (env : EventEnv)
    (name : String) (s : CLIntercept) (h : MDHelper)
    (hh : s.m_pMDHelper = some h) (herr : env.errorCode ≠ CL_SUCCESS) :
    (getMDAPICountersFromEvent cfg env name s).m_MetricAggregations =
      s.m_MetricAggregations ∧
    (getMDAPICountersFromEvent cfg env name s).m_MetricDump_content =
      s.m_MetricDump_content ∧
    getMDAPICountersFromEvent cfg env name s =
      { s with log := s.log ++ [LogMsg.eventQueryFailed env.errorCode] } := by
  refine ⟨?_, ?_, ?_⟩ <;> simp [getMDAPICountersFromEvent, CLI_ASSERT, hh, herr]

/-- Witness for C4: a query failing with result code -5
(`CL_OUT_OF_RESOURCES`) leaves the table and the dump sink untouched and
only logs. -/
theorem getMDAPICountersFromEvent_failureIsolation_witness :
    readyState.m_pMDHelper = some sampleHelper ∧
    ((-5 : Int) ≠ CL_SUCCESS) ∧
    (getMDAPICountersFromEvent ebsConfig
        { errorCode := -5, outputSize := 0, results := [] } "kernelA"
        readyState).m_MetricAggregations = readyState.m_MetricAggregations ∧
    (getMDAPICountersFromEvent ebsConfig
        { errorCode := -5, outputSize := 0, results := [] } "kernelA"
        readyState).m_MetricDump_content = readyState.m_MetricDump_content ∧
    getMDAPICountersFromEvent ebsConfig
        { errorCode := -5, outputSize := 0, results := [] } "kernelA" readyState =
      { readyState with
          log := readyState.log ++ [LogMsg.eventQueryFailed (-5)] } :=
  ⟨rfl, by decide,
   (getMDAPICountersFromEvent_failureIsolation ebsConfig
      { errorCode := -5, outputSize := 0, results := [] } "kernelA"
      readyState sampleHelper rfl (by decide)).1,
   (getMDAPICountersFromEvent_failureIsolation ebsConfig
      { errorCode := -5, outputSize := 0, results := [] } "kernelA"
      readyState sampleHelper rfl (by decide)).2.1,
   (getMDAPICountersFromEvent_failureIsolation ebsConfig
      { errorCode := -5, outputSize := 0, results := [] } "kernelA"
      readyState sampleHelper rfl (by decide)).2.2⟩

/-- C5: on every failure path of Counter-Queue creation the function returns
a null queue and never invokes the backend's queue-creation entry point:
(1) when property translation fails, the property-list entry point returns
a null queue with no side effects at all — in particular no metric-set
activation is attempted; (2) when the backend entry point cannot be
resolved, (3) when the Metrics Session is uninitialized, and (4) when
metric-set activation fails, the bitfield entry point returns a null queue
without invoking the backend's queue-creation entry point. -/
theorem createMDAPICommandQueue_failurePaths :
    (∀ (env : QueueEnv) (props : Option (List Nat)) (errsup : Bool) (s : CLIntercept),
      (convertPropertiesToOCL1_2 props 0).1 = false →
      createMDAPICommandQueueWithProperties env props errsup s =
        { state := s, retVal := none, activateCalled := false
          backendCreateCalled := false, errcodeOut := none }) ∧
    (∀ (env : QueueEnv) (p : Nat) (errsup : Bool) (s : CLIntercept),
      s.entryResolved = false → env.resolveSucceeds = false →
      (createMDAPICommandQueue env p errsup s).retVal = none ∧
      (createMDAPICommandQueue env p errsup s).backendCreateCalled = false) ∧
    (∀ (env : QueueEnv) (p : Nat) (errsup : Bool) (s : CLIntercept),
      s.m_pMDHelper = none →
      (createMDAPICommandQueue env p errsup s).retVal = none ∧
      (createMDAPICommandQueue env p errsup s).backendCreateCalled = false) ∧
    (∀ (env : QueueEnv) (p : Nat) (errsup : Bool) (s : CLIntercept),
      env.activateOk = false →
      (createMDAPICommandQueue env p errsup s).retVal = none ∧
      (createMDAPICommandQueue env p errsup s).backendCreateCalled = false) := by
  refine ⟨fun env props errsup s hconv => ?_,
          fun env p errsup s hres henv => ?_,
          fun env p errsup s hmd => ?_,
          fun env p errsup s hact => ?_⟩
  · simp [createMDAPICommandQueueWithProperties, hconv]
  · simp [createMDAPICommandQueue, hres, henv]
  · by_cases hentry : (s.entryResolved || env.resolveSucceeds) = true
    · simp [createMDAPICommandQueue, hentry, hmd]
    · simp only [Bool.not_eq_true, Bool.or_eq_false_iff] at hentry
      simp [createMDAPICommandQueue, hentry.1, hentry.2]
  · by_cases hentry : (s.entryResolved || env.resolveSucceeds) = true
    · cases hmd : s.m_pMDHelper with
      | none => simp [createMDAPICommandQueue, hentry, hmd]
      | some h => simp [createMDAPICommandQueue, hentry, hmd, hact]
    · simp only [Bool.not_eq_true, Bool.or_eq_false_iff] at hentry
      simp [createMDAPICommandQueue, hentry.1, hentry.2]

/-- Witness for C5: concrete instances of all four failure paths. -/
theorem createMDAPICommandQueue_failurePaths_witness :
    (createMDAPICommandQueueWithProperties
        { resolveSucceeds := true, activateOk := true, configuration := 1
          backendQueue := some 42, backendErr := 0 }
        (some [CL_QUEUE_PROPERTIES, 0xBAD, 0]) true readyState =
      { state := readyState, retVal := none, activateCalled := false
        backendCreateCalled := false, errcodeOut := none }) ∧
    (createMDAPICommandQueue
        { resolveSucceeds := false, activateOk := true, configuration := 1
          backendQueue := some 42, backendErr := 0 } 2 true readyState).retVal = none ∧
    (createMDAPICommandQueue
        { resolveSucceeds := true, activateOk := true, configuration := 1
          backendQueue := some 42, backendErr := 0 } 2 true
        initialCLIntercept).backendCreateCalled = false ∧
    (createMDAPICommandQueue
        { resolveSucceeds := true, activateOk := false, configuration := 1
          backendQueue := some 42, backendErr := 0 } 2 true readyState).retVal = none :=
  ⟨createMDAPICommandQueue_failurePaths.1 _ _ true readyState (by decide),
   (createMDAPICommandQueue_failurePaths.2.1 _ 2 true readyState rfl rfl).1,
   (createMDAPICommandQueue_failurePaths.2.2.1 _ 2 true initialCLIntercept rfl).2,
   (createMDAPICommandQueue_failurePaths.2.2.2 _ 2 true readyState rfl).1⟩

/-- C9: whenever the bitfield Counter-Queue entry point reaches the backend
queue-creation call (the entry point is available after resolution, the
session handle exists, and activation succeeded) and the caller supplied a
non-null error-output parameter, that parameter receives exactly the
backend's own result code before the function returns. -/
theorem createMDAPICommandQueue_propagatesErrcode (env : QueueEnv) (p : Nat)
    (s : CLIntercept) (h : MDHelper) (hh : s.m_pMDHelper = some h)
    (hentry : (s.entryResolved || env.resolveSucceeds) = true)
    (hact : env.activateOk = true) :
    (createMDAPICommandQueue env p true s).backendCreateCalled = true ∧
    (createMDAPICommandQueue env p true s).errcodeOut = some env.backendErr := by
  simp [createMDAPICommandQueue, hh, hentry, hact]

/-- Witness for C9: with everything succeeding and an error-output pointer
supplied, the backend's result code -6 is stored through it. -/
theorem createMDAPICommandQueue_propagatesErrcode_witness :
    readyState.m_pMDHelper = some sampleHelper ∧
    (createMDAPICommandQueue
        { resolveSucceeds := true, activateOk := true, configuration := 5
          backendQueue := none, backendErr := -6 } 2 true
        readyState).backendCreateCalled = true ∧
    (createMDAPICommandQueue
        { resolveSucceeds := true, activateOk := true, configuration := 5
          backendQueue := none, backendErr := -6 } 2 true readyState).errcodeOut =
      some (-6 : Int) :=
  ⟨rfl,
   (createMDAPICommandQueue_propagatesErrcode
      { resolveSucceeds := true, activateOk := true, configuration := 5
        backendQueue := none, backendErr := -6 } 2 readyState sampleHelper
      rfl rfl rfl).1,
   (createMDAPICommandQueue_propagatesErrcode
      { resolveSucceeds := true, activateOk := true, configuration := 5
        backendQueue := none, backendErr := -6 } 2 readyState sampleHelper
      rfl rfl rfl).2⟩

/-- C6: neither the Stream Drain Loop nor the Event Report Extractor
cross-checks the configured sampling mode: their entire observable behavior
is independent of the configuration (the mode flags included), so the
time-based/event-based mutual exclusivity rests solely on the caller
contract documented by the `CLI_ASSERT` precondition comments. -/
theorem extractors_modeIndependent (cfg cfg' : Config) (env : EventEnv)
    (name : String) (s : CLIntercept) :
    getMDAPICountersFromStream cfg s = getMDAPICountersFromStream cfg' s ∧
    getMDAPICountersFromEvent cfg env name s =
      getMDAPICountersFromEvent cfg' env name s :=
  ⟨rfl, rfl⟩

theorem append_newline_ne_empty (a : String) : (a ++ "\n") ≠ "" := by
  intro hcon
  have hlen := congrArg String.length hcon
  rw [String.length_append] at hlen
  have h1 : "\n".length = 1 := rfl
  have h2 : "".length = 0 := rfl
  omega

/-- C7: the Reporter produces output iff per-event timing is enabled,
event-based sampling is enabled, and the Aggregation Table is non-empty; if
any of the three conditions fails, `reportMDAPICounters` writes zero bytes
to the output stream (and, being a pure function of the configuration and
the table, performs no other action). -/
theorem reportMDAPICounters_outputGuard (cfg : Config) (aggr : CMetricAggregations) :
    reportMDAPICounters cfg aggr ≠ "" ↔
      (cfg.DevicePerfCounterTiming = true ∧
       cfg.DevicePerfCounterEventBasedSampling = true ∧ aggr ≠ []) := by
  by_cases hg : (cfg.DevicePerfCounterTiming &&
      cfg.DevicePerfCounterEventBasedSampling && !aggr.isEmpty) = true
  · have hout : reportMDAPICounters cfg aggr ≠ "" := by
      simp only [reportMDAPICounters, hg, if_true]
      exact append_newline_ne_empty _
    simp only [Bool.and_eq_true, Bool.not_eq_true', List.isEmpty_eq_false] at hg
    simp [hout, hg.1.1, hg.1.2, hg.2]
  · have hout : reportMDAPICounters cfg aggr = "" := by
      simp only [Bool.not_eq_true] at hg
      simp [reportMDAPICounters, hg]
    rw [hout]
    constructor
    · intro hcon; exact absurd rfl hcon
    · rintro ⟨ht, he, hne⟩
      have hie : aggr.isEmpty = false := by
        cases aggr with
        | nil => exact absurd rfl hne
        | cons a l => rfl
      exact (hg (by simp [ht, he, hie])).elim

/-- Witness for C7: with timing and event-based sampling enabled and a
non-empty table the Reporter writes output, and with the fresh empty table
it writes zero bytes. -/
theorem reportMDAPICounters_outputGuard_witness :
    reportMDAPICounters ebsConfig aggrInBounds ≠ "" ∧
    reportMDAPICounters ebsConfig [] = "" :=
  ⟨(reportMDAPICounters_outputGuard ebsConfig aggrInBounds).mpr
      ⟨rfl, rfl, by decide⟩,
   by decide⟩

/-- The Dump Sink invariant of C8: either the sink has never been opened
(no opens, no rows), or it has been opened exactly once and holds exactly
the two header rows written immediately after opening (only
initialization calls considered, so no data rows follow yet). -/
def dumpSinkInvariant (s : CLIntercept) : Prop :=
  (s.m_MetricDump_isOpen = false ∧ s.m_MetricDump_openCount = 0 ∧
    s.m_MetricDump_content = []) ∨
  (s.m_MetricDump_isOpen = true ∧ s.m_MetricDump_openCount = 1 ∧
    s.m_MetricDump_content = [DumpRow.metricNames, DumpRow.metricUnits])

theorem initCustomPerfCounters_dumpInvariant (cfg : Config) (env : InitEnv)
    (s : CLIntercept) (h : dumpSinkInvariant s) :
    dumpSinkInvariant (initCustomPerfCounters cfg env s) := by
  rcases hmd : s.m_pMDHelper with _ | helper <;>
  rcases hebs : cfg.DevicePerfCounterEventBasedSampling with _ | _ <;>
  rcases htbs : cfg.DevicePerfCounterTimeBasedSampling with _ | _ <;>
  rcases hcs : env.createSucceeds with _ | _ <;>
  rcases h with ⟨h1, h2, h3⟩ | ⟨h1, h2, h3⟩ <;>
  simp [initCustomPerfCounters, CLI_ASSERT, dumpSinkInvariant, hmd, hebs, htbs,
    hcs, h1, h2, h3]

/-- C8: across any sequence of initialization calls from the fresh process
state, the Dump Sink is opened at most once — only by the call that finds
it not yet open — and whenever it is open it was opened exactly once and
holds exactly the metric-names and metric-units header rows, written
immediately after opening and before any data row. -/
theorem runInits_dumpSinkOnce (cfg : Config) (envs : List InitEnv) :
    (runInits cfg envs initialCLIntercept).m_MetricDump_openCount ≤ 1 ∧
    ((runInits cfg envs initialCLIntercept).m_MetricDump_isOpen = false ∧
      (runInits cfg envs initialCLIntercept).m_MetricDump_openCount = 0 ∧
      (runInits cfg envs initialCLIntercept).m_MetricDump_content = [] ∨
     (runInits cfg envs initialCLIntercept).m_MetricDump_isOpen = true ∧
      (runInits cfg envs initialCLIntercept).m_MetricDump_openCount = 1 ∧
      (runInits cfg envs initialCLIntercept).m_MetricDump_content =
        [DumpRow.metricNames, DumpRow.metricUnits]) := by
  have hinv : ∀ (l : List InitEnv) (s : CLIntercept), dumpSinkInvariant s →
      dumpSinkInvariant (runInits cfg l s) := by
    intro l
    induction l with
    | nil => intro s hs; exact hs
    | cons e rest ih =>
      intro s hs
      exact ih _ (initCustomPerfCounters_dumpInvariant cfg e s hs)
  have h0 : dumpSinkInvariant initialCLIntercept := Or.inl ⟨rfl, rfl, rfl⟩
  have hres := hinv envs initialCLIntercept h0
  rcases hres with ⟨h1, h2, h3⟩ | ⟨h1, h2, h3⟩
  · exact ⟨by omega, Or.inl ⟨h1, h2, h3⟩⟩
  · exact ⟨by omega, Or.inr ⟨h1, h2, h3⟩⟩

/-- C10: the Reporter's per-cell width lookup indexes, per call-site, run
from 0 below that call-site's metric count into the width vector captured
from the first call-site's metric map; every lookup is in bounds exactly
when each call-site's metric map has at most as many entries as the first
call-site's, and any call-site with more metrics than the first forces a
lookup past the end of the width vector. -/
theorem reportWidthIndices_bounds (aggr : CMetricAggregations) :
    (∀ name metrics rest, aggr = (name, metrics) :: rest →
      headerWidths aggr = metrics.map (fun m => m.1.length)) ∧
    ((∀ i ∈ reportWidthIndices aggr, i < (headerWidths aggr).length) ↔
      (∀ entry ∈ aggr, entry.2.length ≤ (headerWidths aggr).length)) ∧
    (∀ entry ∈ aggr, entry.2.length > (headerWidths aggr).length →
      ∃ i ∈ reportWidthIndices aggr, (headerWidths aggr).length ≤ i) := by
  refine ⟨?_, ⟨?_, ?_⟩, ?_⟩
  · rintro name metrics rest rfl
    rfl
  · intro hall entry hmem
    by_cases hlen : entry.2.length = 0
    · omega
    · have hidx : entry.2.length - 1 ∈ reportWidthIndices aggr := by
        unfold reportWidthIndices
        exact List.mem_flatMap.mpr ⟨entry, hmem, List.mem_range.mpr (by omega)⟩
      have := hall _ hidx
      omega
  · intro hall i hi
    unfold reportWidthIndices at hi
    rcases List.mem_flatMap.mp hi with ⟨entry, hmem, hr⟩
    have h1 := List.mem_range.mp hr
    have h2 := hall entry hmem
    omega
  · intro entry hmem hover
    refine ⟨(headerWidths aggr).length, ?_, le_refl _⟩
    unfold reportWidthIndices
    exact List.mem_flatMap.mpr ⟨entry, hmem, List.mem_range.mpr (by omega)⟩

/-- Witness for C10: in `aggrInBounds` no call-site exceeds the first one's
two metrics and every width lookup is in bounds; in `aggrOverflow` the
second call-site has two metrics against a one-entry width vector and a
lookup reaches index 1, past the end. -/
theorem reportWidthIndices_bounds_witness :
    (∀ i ∈ reportWidthIndices aggrInBounds, i < (headerWidths aggrInBounds).length) ∧
    (∃ i ∈ reportWidthIndices aggrOverflow, (headerWidths aggrOverflow).length ≤ i) :=
  ⟨(reportWidthIndices_bounds aggrInBounds).2.1.mpr (by decide),
   (reportWidthIndices_bounds aggrOverflow).2.2
      ("kernelB", [("MetricX", { Count := 1, Sum := 1 }),
                   ("MetricY", { Count := 1, Sum := 2 })])
      (by decide) (by decide)⟩

end MDAPI
